import Mathlib

/-!
Shallow embedding of the session/authentication lifecycle and the ticket-list
synchronizer of the egpb-workorder-mobile client.

Sources embedded here:
- `src/src/contexts/AuthContext.tsx` — session policy (`isSessionExpired`,
  `SESSION_TIMEOUT_MS`), `clearStoredAuth`, the 401 cleanup registered via
  `apiService.setOnUnauthorized`, `restoreSession`, `login`, `logout`.
- `src/src/services/api.ts` — `ApiService.request` (envelope, content-type
  check, 401 callback) and the `uploadImages` raw-fetch paths.
- `src/unnamed/part_003` (HomeScreen) — `buildFilters`, `fetchTickets`,
  `fetchMore` and their loading/hasMore state.

Asynchronous effects are made explicit: each `await` point takes its outcome
(server response, storage success or thrown error) as a parameter, and the
interleaved scenarios are expressed by splitting a handler into its
synchronous phases (the part before the `await` and the continuation after).
JavaScript `parseInt` and truthiness checks are modelled explicitly.
-/

namespace Egpb

/-- Decidable equality for `Except`, used to derive it for outcome records. -/
instance {ε α : Type} [DecidableEq ε] [DecidableEq α] : DecidableEq (Except ε α) := fun a b =>
  match a, b with
  | .ok x, .ok y =>
    if h : x = y then .isTrue (by rw [h]) else .isFalse (by intro hc; cases hc; exact h rfl)
  | .error x, .error y =>
    if h : x = y then .isTrue (by rw [h]) else .isFalse (by intro hc; cases hc; exact h rfl)
  | .ok _, .error _ => .isFalse (by intro hc; cases hc)
  | .error _, .ok _ => .isFalse (by intro hc; cases hc)

/-- User record, from `src/src/types/index.ts` (fields the auth flow uses). -/
structure User where
  id : String
  username : String
  role : String
deriving Repr, DecidableEq

/-- Session inactivity threshold, `AuthContext.tsx` line 21:
`const SESSION_TIMEOUT_MS = 2 * 24 * 60 * 60 * 1000`. -/
def SESSION_TIMEOUT_MS : Int := 2 * 24 * 60 * 60 * 1000

/-- Numeric value of a decimal digit character. -/
def digitVal (c : Char) : Nat := c.toNat - 48

/-- Model of JavaScript `parseInt(s, 10)`: skip leading spaces, optional
sign, then the longest prefix of decimal digits; `none` models `NaN`
(no digits at all). -/
def jsParseInt (s : String) : Option Int :=
  let cs := s.data.dropWhile (fun c => c = ' ')
  let signAndRest : Int × List Char :=
    match cs with
    | '-' :: r => (-1, r)
    | '+' :: r => (1, r)
    | _ => (1, cs)
  let ds := signAndRest.2.takeWhile Char.isDigit
  if ds.isEmpty then none
  else some (signAndRest.1 * (ds.foldl (fun a c => a * 10 + digitVal c) 0 : Nat))

/-- Core expiry comparison, `AuthContext.tsx` lines 67-68:
`elapsed = Date.now() - parseInt(lastActive, 10); return elapsed > SESSION_TIMEOUT_MS`.
`none` models a `NaN` timestamp: in JavaScript `NaN - t` is `NaN` and
`NaN > SESSION_TIMEOUT_MS` is `false`. -/
def isExpiredElapsed (lastActive : Option Int) (now : Int) : Bool :=
  match lastActive with
  | none => false
  | some t => decide (now - t > SESSION_TIMEOUT_MS)

/-- Model of `isSessionExpired` (`AuthContext.tsx` lines 62-72). The argument
is the outcome of `AsyncStorage.getItem(LAST_ACTIVE)`: `.error` models the
read throwing (caught, returns `false`); `.ok none` models a missing key
(`!lastActive` → `false`); the empty string is also falsy in JavaScript and
`jsParseInt ""` is `none`, so both roads give `false`. -/
def isSessionExpired (readResult : Except String (Option String)) (now : Int) : Bool :=
  match readResult with
  | .error _ => false
  | .ok none => false
  | .ok (some s) => if s = "" then false else isExpiredElapsed (jsParseInt s) now

/-- Persistent storage: `SecureStore` key `auth_token` plus `AsyncStorage`
keys `auth_user` (user JSON snapshot) and `last_active_timestamp`. -/
structure Storage where
  token : Option String
  user : Option User
  lastActive : Option String
deriving Repr, DecidableEq

/-- Storage with every auth key absent. -/
def Storage.empty : Storage := ⟨none, none, none⟩

/-- In-memory auth state: the React `user` state, the `apiService` token and
the persisted storage. -/
structure AuthState where
  user : Option User
  apiToken : Option String
  storage : Storage
deriving Repr, DecidableEq

/-- Model of `clearStoredAuth` (`AuthContext.tsx` lines 75-85): removes the
three stored keys; its own storage errors are swallowed. -/
def clearStoredAuth (s : AuthState) : AuthState :=
  { s with storage := Storage.empty }

/-- Model of the 401 handler registered with `apiService.setOnUnauthorized`
(`AuthContext.tsx` lines 43-50): `clearStoredAuth` then `setToken(null)` and
`setUser(null)`, run to completion. -/
def onUnauthorizedCleanup (s : AuthState) : AuthState :=
  { clearStoredAuth s with apiToken := none, user := none }

/-- Outcome of `await apiService.auth.signIn(username, password)`:
`ok` is `result.success && result.data`, `fail` a non-success envelope with
its optional `result.error`, `threw` a rejected promise with the error
message. -/
inductive SignInOutcome where
  | ok (userData : User) (token : String)
  | fail (err : Option String)
  | threw (msg : String)
deriving Repr, DecidableEq

/-- Outcomes of the storage writes `login` performs after a successful
sign-in: `SecureStore.setItemAsync(TOKEN)`, `AsyncStorage.setItem(USER)` and
the `updateLastActive` write, each either succeeding or throwing a message. -/
structure WriteOutcomes where
  tokenWrite : Except String Unit
  userWrite : Except String Unit
  lastActiveWrite : Except String Unit
deriving Repr, DecidableEq

/-- All three storage writes succeed. -/
def WriteOutcomes.allOk : WriteOutcomes := ⟨.ok (), .ok (), .ok ()⟩

/-- Value returned by `login`: `{ success: boolean; error?: string }`. -/
structure LoginResult where
  success : Bool
  error : Option String
deriving Repr, DecidableEq

/-- Model of `updateLastActive` (`AuthContext.tsx` lines 53-59): writes
`Date.now().toString()` under `last_active_timestamp`; a storage error is
caught and ignored. -/
def updateLastActive (s : AuthState) (now : Int) (w : Except String Unit) : AuthState :=
  match w with
  | .ok _ => { s with storage := { s.storage with lastActive := some (toString now) } }
  | .error _ => s

/-- Model of `login` (`AuthContext.tsx` lines 160-184). On a successful
sign-in it first sets the API token and the in-memory user, then persists
token, user snapshot and last-active timestamp in that order; any throw in
the `try` block lands in the `catch`, which returns
`{ success: false, error: error.message }` and performs no rollback. -/
def login (s : AuthState) (outcome : SignInOutcome) (w : WriteOutcomes) (now : Int) :
    AuthState × LoginResult :=
  match outcome with
  | .threw msg => (s, ⟨false, some msg⟩)
  | .fail err => (s, ⟨false, some (err.getD "Login failed")⟩)
  | .ok userData token =>
    let s1 : AuthState := { s with apiToken := some token, user := some userData }
    match w.tokenWrite with
    | .error msg => (s1, ⟨false, some msg⟩)
    | .ok _ =>
      let s2 : AuthState := { s1 with storage := { s1.storage with token := some token } }
      match w.userWrite with
      | .error msg => (s2, ⟨false, some msg⟩)
      | .ok _ =>
        let s3 : AuthState := { s2 with storage := { s2.storage with user := some userData } }
        (updateLastActive s3 now w.lastActiveWrite, ⟨true, none⟩)

/-- Envelope produced by `ApiService.request` (payload elided): the
`{success, error?}` part of `ApiResponse`. -/
structure ApiResult where
  success : Bool
  error : Option String
deriving Repr, DecidableEq

/-- Parsed JSON body of a non-upload response (only the `error` field
matters to the embedded claims). -/
structure JsonBody where
  error : Option String
deriving Repr, DecidableEq

/-- An HTTP response as `ApiService.request` observes it: status code,
whether the `content-type` header exists and includes `application/json`,
and the outcome of `response.json()` (`.error` models a parse throw). -/
structure HttpResponse where
  status : Nat
  contentTypeJson : Bool
  body : Except String JsonBody
deriving Repr, DecidableEq

/-- Outcome of the `fetch` call inside `ApiService.request`: a response, an
abort by the 10s timeout (`AbortError`), or a network-level throw. -/
inductive FetchOutcome where
  | response (r : HttpResponse)
  | abortTimeout
  | netFailure (msg : String)
deriving Repr, DecidableEq

/-- JavaScript `Response.ok`: status in the range 200-299. -/
def statusOk (status : Nat) : Bool := 200 ≤ status && status ≤ 299

/-- Model of `ApiService.request` (`api.ts` lines 36-98) with
`USE_MOCK = false`. `registered` says whether `setOnUnauthorized` installed a
callback. Returns the envelope together with whether the unauthorized
callback was invoked. The non-JSON content-type check returns early BEFORE
the status is inspected; a `response.json()` throw is caught by the outer
`catch`; only after both does `response.ok` gate the 401 branch. -/
def request (registered : Bool) (f : FetchOutcome) : ApiResult × Bool :=
  match f with
  | .abortTimeout => (⟨false, some "Request timed out. Please check your connection."⟩, false)
  | .netFailure msg => (⟨false, some msg⟩, false)
  | .response r =>
    if !r.contentTypeJson then
      (⟨false, some ("Server returned non-JSON response (" ++ toString r.status ++ ")")⟩, false)
    else
      match r.body with
      | .error msg => (⟨false, some msg⟩, false)
      | .ok body =>
        if !statusOk r.status then
          (⟨false, some (body.error.getD "An error occurred")⟩, r.status == 401 && registered)
        else
          (⟨true, none⟩, false)

/-- Parsed JSON body of the multipart upload endpoint:
`{ success, error? }`. -/
structure UploadBody where
  success : Bool
  error : Option String
deriving Repr, DecidableEq

/-- The raw `fetch` response seen by the `uploadImages` paths: status code
and the outcome of `response.json()`. -/
structure UploadHttpResponse where
  status : Nat
  body : Except String UploadBody
deriving Repr, DecidableEq

/-- Model of `tickets.uploadImages` / `engineerTickets.uploadImages`
(`api.ts` lines 331-365 and 402-437; the two differ only in an extra form
field). They call `fetch` directly, bypassing `ApiService.request`: there is
no content-type check, `!response.ok || !result.success` throws an `Error`
caught into `{success: false, error: message}`, and the code never touches
`onUnauthorizedCallback`, so the second component (callback invoked) is
`false` on every path. -/
def uploadImages (f : Except String UploadHttpResponse) : ApiResult × Bool :=
  match f with
  | .error msg => (⟨false, some msg⟩, false)
  | .ok r =>
    match r.body with
    | .error msg => (⟨false, some msg⟩, false)
    | .ok b =>
      if !statusOk r.status || !b.success then
        (⟨false, some (b.error.getD "Upload failed")⟩, false)
      else
        (⟨true, none⟩, false)

/-- Model of `logout` (`AuthContext.tsx` lines 187-195):
`try { await signOut() } finally { setToken(null); setUser(null); clearStoredAuth() }`.
The cleanup runs on every exit path; if the call itself threw the rejection
propagates after the `finally`, which the second component records. -/
def logout (s : AuthState) (signOutCall : Except String ApiResult) :
    AuthState × Except String Unit :=
  let cleaned : AuthState := { clearStoredAuth s with apiToken := none, user := none }
  match signOutCall with
  | .ok _ => (cleaned, .ok ())
  | .error e => (cleaned, .error e)

/-- Outcome of `await apiService.auth.getUser()` during restore: `ok` is
`result.success && result.data?.user`, `fail` any other envelope, `threw` a
rejected promise. -/
inductive GetUserOutcome where
  | ok (u : User)
  | fail
  | threw (msg : String)
deriving Repr, DecidableEq

/-- Reading `last_active_timestamp` from storage: either the stored value or
a thrown read error. -/
def readLastActive (st : Storage) (readFails : Bool) : Except String (Option String) :=
  if readFails then .error "storage read error" else .ok st.lastActive

/-- Model of `restoreSession` (`AuthContext.tsx` lines 88-128). Checks
expiry first: if expired, clears storage and memory and returns WITHOUT any
network call. Otherwise reads the saved token; if present it sets the API
token and calls `auth.getUser` (the only network call, recorded in the
second component); on a valid user it stores the fresh snapshot and
timestamp, on an invalid or thrown result the outer `catch`/else clears
storage and the API token. -/
def restoreSession (s : AuthState) (now : Int) (readFails : Bool) (tokenReadFails : Bool)
    (api : GetUserOutcome) (userWrite lastActiveWrite : Except String Unit) :
    AuthState × Bool :=
  if isSessionExpired (readLastActive s.storage readFails) now then
    ({ clearStoredAuth s with apiToken := none, user := none }, false)
  else if tokenReadFails then
    ({ clearStoredAuth s with apiToken := none }, false)
  else
    match s.storage.token with
    | none => (s, false)
    | some tok =>
      let s1 : AuthState := { s with apiToken := some tok }
      match api with
      | .ok u =>
        let s2 : AuthState := { s1 with user := some u }
        match userWrite with
        | .error _ => ({ clearStoredAuth s2 with apiToken := none }, true)
        | .ok _ =>
          let s3 : AuthState := { s2 with storage := { s2.storage with user := some u } }
          (updateLastActive s3 now lastActiveWrite, true)
      | .fail => ({ clearStoredAuth s1 with apiToken := none }, true)
      | .threw _ => ({ clearStoredAuth s1 with apiToken := none }, true)

/-- Page size, `part_003` line 218: `const ITEMS_PER_PAGE = 20`. -/
def ITEMS_PER_PAGE : Nat := 20

/-- Filter state of the HomeScreen (`part_003` lines 234-248): the debounced
search text, status, damage type, date range and the my-tickets toggle. -/
structure FilterState where
  debouncedSearch : String
  filterStatus : String
  filterType : String
  startDate : String
  endDate : String
  myTickets : Bool
deriving Repr, DecidableEq

/-- All filters at their empty defaults. -/
def FilterState.empty : FilterState := ⟨"", "", "", "", "", false⟩

/-- A query parameter value: string or number, as in
`Record<string, string | number>`. -/
inductive QVal where
  | str (s : String)
  | num (n : Nat)
deriving Repr, DecidableEq

/-- Model of `buildFilters` (`part_003` lines 260-272): always `limit` and
`offset`; each filter key only when its value is truthy (non-empty string /
`true`). -/
def buildFilters (f : FilterState) (offset : Nat) : List (String × QVal) :=
  [("limit", QVal.num ITEMS_PER_PAGE), ("offset", QVal.num offset)]
  ++ (if f.debouncedSearch ≠ "" then [("search", QVal.str f.debouncedSearch)] else [])
  ++ (if f.filterStatus ≠ "" then [("status", QVal.str f.filterStatus)] else [])
  ++ (if f.filterType ≠ "" then [("type", QVal.str f.filterType)] else [])
  ++ (if f.startDate ≠ "" then [("startDate", QVal.str f.startDate)] else [])
  ++ (if f.endDate ≠ "" then [("endDate", QVal.str f.endDate)] else [])
  ++ (if f.myTickets then [("createdByMe", QVal.str "true")] else [])

/-- Status tallies (`TicketStats` in `types/index.ts`). -/
structure TicketStats where
  NEW : Nat
  IN_PROGRESS : Nat
  ON_HOLD : Nat
  DONE : Nat
  CANCEL : Nat
deriving Repr, DecidableEq

/-- Zero tallies, the `useState` initial value. -/
def TicketStats.zero : TicketStats := ⟨0, 0, 0, 0, 0⟩

/-- Successful list payload `{ tickets, count, statusCounts }`; tickets are
identified by their id strings. -/
structure ListData where
  tickets : List String
  count : Nat
  statusCounts : Option TicketStats
deriving Repr, DecidableEq

/-- HomeScreen list state (`part_003` lines 226-232). -/
structure ListState where
  tickets : List String
  stats : TicketStats
  totalCount : Nat
  loading : Bool
  refreshing : Bool
  loadingMore : Bool
  hasMore : Bool
deriving Repr, DecidableEq

/-- The `useState` initial values: empty list, `loading = true`,
`hasMore = true`. -/
def ListState.initial : ListState := ⟨[], TicketStats.zero, 0, true, false, false, true⟩

/-- Synchronous prefix of `fetchTickets` (`part_003` lines 275-279): sets
`loading` and issues `api.list(buildFilters(0))`; the issued query is the
second component. -/
def fetchTicketsStart (f : FilterState) (s : ListState) : ListState × List (String × QVal) :=
  ({ s with loading := true }, buildFilters f 0)

/-- Continuation of `fetchTickets` after its response arrives (`part_003`
lines 280-294): on success replaces `tickets` wholesale, sets `totalCount`,
recomputes `hasMore` from the returned length, takes `statusCounts` when
present; on failure (envelope failure or throw, `none` here) changes no
data; `finally` clears `loading` and `refreshing`. -/
def fetchTicketsResolve (s : ListState) (result : Option ListData) : ListState :=
  let s1 : ListState :=
    match result with
    | some d =>
      { s with tickets := d.tickets, totalCount := d.count,
               hasMore := decide (d.tickets.length ≥ ITEMS_PER_PAGE),
               stats := d.statusCounts.getD s.stats }
    | none => s
  { s1 with loading := false, refreshing := false }

/-- Synchronous prefix of `fetchMore` (`part_003` lines 298-303): the guard
`if (loadingMore || !hasMore || loading) return` issues nothing (`none`);
otherwise it sets `loadingMore` and issues
`api.list(buildFilters(tickets.length))`, returned as the second
component. -/
def fetchMoreStart (f : FilterState) (s : ListState) :
    ListState × Option (List (String × QVal)) :=
  if s.loadingMore || !s.hasMore || s.loading then (s, none)
  else ({ s with loadingMore := true }, some (buildFilters f s.tickets.length))

/-- Continuation of `fetchMore` after its response arrives (`part_003` lines
304-313): on success appends the returned tickets to the CURRENT `tickets`
(`setTickets(prev => [...prev, ...moreTickets])`) and recomputes `hasMore`;
`finally` clears `loadingMore`. No staleness check is performed. -/
def fetchMoreResolve (s : ListState) (result : Option ListData) : ListState :=
  let s1 : ListState :=
    match result with
    | some d =>
      { s with tickets := s.tickets ++ d.tickets,
               hasMore := decide (d.tickets.length ≥ ITEMS_PER_PAGE) }
    | none => s
  { s1 with loadingMore := false }

/-! Concrete scenario data used by witnesses and counterexamples. -/

/-- Sample user. -/
def userA : User := ⟨"7", "alice", "USER"⟩

/-- Filter state with only `status = "NEW"` set. -/
def filterNEW : FilterState := { FilterState.empty with filterStatus := "NEW" }

/-- Filter state after the user typed a search term. -/
def filterSearch : FilterState := { FilterState.empty with debouncedSearch := "printer" }

/-- First page of twenty ticket ids. -/
def page20 : List String := (List.range 20).map (fun i => "t" ++ toString i)

/-- Follow-up page of five ticket ids. -/
def page5 : List String := (List.range 5).map (fun i => "u" ++ toString i)

/-- List state after the first page under `filterNEW` resolved with twenty
tickets (so `hasMore` is true). -/
def stateAfterFirstPage : ListState :=
  fetchTicketsResolve (fetchTicketsStart filterNEW ListState.initial).1
    (some ⟨page20, 25, none⟩)

/-- C6 scenario end state: load-more from `stateAfterFirstPage`, server
returns five more tickets. -/
def c6Final : ListState :=
  fetchMoreResolve (fetchMoreStart filterNEW stateAfterFirstPage).1 (some ⟨page5, 25, none⟩)

/-- Response belonging to the load-more request that was issued under
`filterNEW` before the search changed. -/
def stalePage : List String := ["stale0", "stale1"]

/-- First page returned for the new `filterSearch` query. -/
def freshPage : List String := ["n0", "n1", "n2"]

/-- C2 trace, step 2: load-more in flight (requested offset 20 under
`filterNEW`). -/
def c2InFlight : ListState := (fetchMoreStart filterNEW stateAfterFirstPage).1

/-- C2 trace, step 3: the search text changed, the new first-page fetch
started. -/
def c2Refetching : ListState := (fetchTicketsStart filterSearch c2InFlight).1

/-- C2 trace, step 4: the new first page resolved, replacing the items. -/
def c2Refetched : ListState := fetchTicketsResolve c2Refetching (some ⟨freshPage, 3, none⟩)

/-- C2 trace, step 5: the stale load-more response finally arrives. -/
def c2Final : ListState := fetchMoreResolve c2Refetched (some ⟨stalePage, 25, none⟩)

/-- C1 scenario: auth state before the interleaving. -/
def c1Start : AuthState := ⟨none, none, Storage.empty⟩

/-- C9 scenario: login into an empty state where the token write succeeds
and the user-snapshot write throws. -/
def c9Run : AuthState × LoginResult :=
  login ⟨none, none, Storage.empty⟩ (.ok userA "tok9") ⟨.ok (), .error "disk full", .ok ()⟩ 50

/-! Theorems settling the claims. -/

/-- Claim C3: for every lastActiveAt and now, the expiry decision returns
true if and only if `now - lastActiveAt > 172800000` ms (2 days); when no
last-active timestamp is stored, the session is treated as not expired. -/
theorem expiry_threshold_spec :
    (∀ t now : Int, isExpiredElapsed (some t) now = decide (now - t > 172800000)) ∧
    (∀ now : Int, isExpiredElapsed none now = false) ∧
    (∀ now : Int, isSessionExpired (.ok none) now = false) := by
  have h : SESSION_TIMEOUT_MS = 172800000 := by norm_num [SESSION_TIMEOUT_MS]
  exact ⟨fun t now => by simp only [isExpiredElapsed, h], fun _ => rfl, fun _ => rfl⟩

/-- Claim C10: a stored last-active value whose read throws, or which does
not parse as a number (JavaScript `parseInt` yields `NaN`), makes the expiry
check return false — restore then proceeds as if the session were fresh. -/
theorem corrupt_timestamp_not_expired :
    (∀ (msg : String) (now : Int), isSessionExpired (.error msg) now = false) ∧
    (∀ (s : String) (now : Int), jsParseInt s = none →
      isSessionExpired (.ok (some s)) now = false) := by
  refine ⟨fun _ _ => rfl, fun s now h => ?_⟩
  by_cases hs : s = ""
  · simp [isSessionExpired, hs]
  · simp [isSessionExpired, hs, isExpiredElapsed, h]

/-- Witness for C10 at the concrete corrupted value `"garbage"`. -/
theorem corrupt_timestamp_not_expired_witness :
    jsParseInt "garbage" = none ∧
    isSessionExpired (.ok (some "garbage")) 999999999999 = false :=
  ⟨by decide, corrupt_timestamp_not_expired.2 "garbage" 999999999999 (by decide)⟩

/-- Claim C4: whenever the stored state is expired at restore time,
`restoreSession` ends Unauthenticated (user and API token `none`), leaves
the three storage keys removed, and issues no network call (the second
component is false). -/
theorem restore_expired_clears :
    ∀ (s : AuthState) (now : Int) (readFails tokenReadFails : Bool)
      (api : GetUserOutcome) (uw lw : Except String Unit),
      isSessionExpired (readLastActive s.storage readFails) now = true →
      restoreSession s now readFails tokenReadFails api uw lw =
        (⟨none, none, Storage.empty⟩, false) := by
  intro s now rf trf api uw lw h
  simp [restoreSession, h, clearStoredAuth]

/-- Witness for C4: a token stored with a two-days-stale timestamp. -/
theorem restore_expired_clears_witness :
    isSessionExpired (readLastActive ⟨some "tok", some userA, some "0"⟩ false) 172800001 = true ∧
    restoreSession ⟨none, none, ⟨some "tok", some userA, some "0"⟩⟩ 172800001 false false
        .fail (.ok ()) (.ok ()) = (⟨none, none, Storage.empty⟩, false) :=
  ⟨by decide,
   restore_expired_clears ⟨none, none, ⟨some "tok", some userA, some "0"⟩⟩ 172800001 false false
     .fail (.ok ()) (.ok ()) (by decide)⟩

/-- Claim C7: logging out twice gives the same end state as once — user
`none`, API token `none`, storage empty; the second call resolves without
throwing (the sign-out call goes through `request`, which never throws); and
the local cleanup happens on every exit path, even a hypothetical rejection
of the remote call. -/
theorem logout_idempotent :
    ∀ (s : AuthState) (f₁ f₂ : FetchOutcome) (e : String),
      (logout s (.ok (request true f₁).1)).1 = ⟨none, none, Storage.empty⟩ ∧
      logout (logout s (.ok (request true f₁).1)).1 (.ok (request true f₂).1) =
        ((logout s (.ok (request true f₁).1)).1, .ok ()) ∧
      (logout s (.error e)).1 = ⟨none, none, Storage.empty⟩ :=
  fun _ _ _ _ => ⟨rfl, rfl, rfl⟩

/-- Keys of the built query: always `limit` and `offset`, then one optional
key per truthy filter field. -/
theorem buildFilters_keys (f : FilterState) (offset : Nat) :
    (buildFilters f offset).map Prod.fst =
      ["limit", "offset"]
      ++ (if f.debouncedSearch ≠ "" then ["search"] else [])
      ++ (if f.filterStatus ≠ "" then ["status"] else [])
      ++ (if f.filterType ≠ "" then ["type"] else [])
      ++ (if f.startDate ≠ "" then ["startDate"] else [])
      ++ (if f.endDate ≠ "" then ["endDate"] else [])
      ++ (if f.myTickets then ["createdByMe"] else []) := by
  simp only [buildFilters, List.map_append, apply_ite (List.map Prod.fst)]
  rfl

/-- Claim C8: the query-builder on all-empty filters with offset 0 yields
exactly `limit=20, offset=0`; every empty or default filter field is omitted
from the query; and the function is deterministic in its inputs. -/
theorem buildFilters_omits_empty :
    buildFilters FilterState.empty 0 = [("limit", QVal.num 20), ("offset", QVal.num 0)] ∧
    (∀ (f : FilterState) (offset : Nat),
      (f.debouncedSearch = "" → "search" ∉ (buildFilters f offset).map Prod.fst) ∧
      (f.filterStatus = "" → "status" ∉ (buildFilters f offset).map Prod.fst) ∧
      (f.filterType = "" → "type" ∉ (buildFilters f offset).map Prod.fst) ∧
      (f.startDate = "" → "startDate" ∉ (buildFilters f offset).map Prod.fst) ∧
      (f.endDate = "" → "endDate" ∉ (buildFilters f offset).map Prod.fst) ∧
      (f.myTickets = false → "createdByMe" ∉ (buildFilters f offset).map Prod.fst)) ∧
    (∀ (f₁ f₂ : FilterState) (o₁ o₂ : Nat), f₁ = f₂ → o₁ = o₂ →
      buildFilters f₁ o₁ = buildFilters f₂ o₂) := by
  refine ⟨by rfl, fun f offset => ?_, by rintro f₁ f₂ o₁ o₂ rfl rfl; rfl⟩
  refine ⟨fun h => ?_, fun h => ?_, fun h => ?_, fun h => ?_, fun h => ?_, fun h => ?_⟩ <;>
    rw [buildFilters_keys] <;> simp only [h, ne_eq, not_true_eq_false, if_false,
      Bool.false_eq_true] <;> split_ifs <;> decide

/-- Witness for C8: on the all-empty filter state no optional key appears. -/
theorem buildFilters_omits_empty_witness :
    "search" ∉ (buildFilters FilterState.empty 0).map Prod.fst ∧
    "createdByMe" ∉ (buildFilters FilterState.empty 0).map Prod.fst :=
  ⟨(buildFilters_omits_empty.2.1 FilterState.empty 0).1 rfl,
   (buildFilters_omits_empty.2.1 FilterState.empty 0).2.2.2.2.2 rfl⟩

/-- Claim C6: `fetchMore` issues no request when a load-more is in flight,
`hasMore` is false, or a first-page fetch is in progress; otherwise it
requests at `offset = tickets.length`, appends the returned items and sets
`hasMore` to (returned length ≥ 20). Scenario: after a 20-item first page
under `status = "NEW"`, load-more requests offset 20 and a 5-item response
yields `hasMore = false` and 25 items. -/
theorem fetchMore_pagination :
    ∀ (f : FilterState) (s : ListState) (d : ListData),
      ((s.loadingMore || !s.hasMore || s.loading) = true → fetchMoreStart f s = (s, none)) ∧
      ((s.loadingMore || !s.hasMore || s.loading) = false →
        (fetchMoreStart f s).2 = some (buildFilters f s.tickets.length) ∧
        (fetchMoreResolve (fetchMoreStart f s).1 (some d)).tickets = s.tickets ++ d.tickets ∧
        (fetchMoreResolve (fetchMoreStart f s).1 (some d)).hasMore
          = decide (d.tickets.length ≥ 20)) ∧
      (stateAfterFirstPage.hasMore = true ∧
        (fetchMoreStart filterNEW stateAfterFirstPage).2 = some (buildFilters filterNEW 20) ∧
        ("offset", QVal.num 20) ∈ buildFilters filterNEW 20 ∧
        c6Final.hasMore = false ∧ c6Final.tickets.length = 25) := by
  intro f s d
  refine ⟨fun h => by simp [fetchMoreStart, h], fun h => ?_, by decide⟩
  refine ⟨by simp [fetchMoreStart, h], ?_, ?_⟩ <;>
    simp [fetchMoreStart, fetchMoreResolve, h, ITEMS_PER_PAGE]

/-- Witness for C6: the guard blocks the initial loading state, and the
scenario state issues the offset-20 request. -/
theorem fetchMore_pagination_witness :
    fetchMoreStart filterNEW ListState.initial = (ListState.initial, none) ∧
    (fetchMoreStart filterNEW stateAfterFirstPage).2 = some (buildFilters filterNEW 20) :=
  ⟨(fetchMore_pagination filterNEW ListState.initial ⟨[], 0, none⟩).1 (by decide),
   ((fetchMore_pagination filterNEW stateAfterFirstPage ⟨page5, 25, none⟩).2.1 (by decide)).1⟩

/-- Claim C1 counterexample: the 401 cleanup runs to completion while a
login is pending; when the login then resolves successfully its
continuation re-sets the user and the API token, so the final state is
Authenticated, not Unauthenticated as the claim demands. -/
theorem late_login_resurrects_counterexample :
    (login (onUnauthorizedCleanup c1Start) (.ok userA "tok1") WriteOutcomes.allOk 100).1.user
      = some userA ∧
    (login (onUnauthorizedCleanup c1Start) (.ok userA "tok1") WriteOutcomes.allOk 100).1.apiToken
      = some "tok1" :=
  ⟨rfl, rfl⟩

/-- Claim C1 amended: `login` gates nothing on the cleanup — whatever state
the 401 cleanup left behind, a successful login resolution afterwards sets
the in-memory user and API token to the login's values (the late success
resurrects the session), for every combination of storage-write outcomes. -/
theorem late_login_resurrects :
    ∀ (s : AuthState) (u : User) (tok : String) (w : WriteOutcomes) (now : Int),
      (login (onUnauthorizedCleanup s) (.ok u tok) w now).1.user = some u ∧
      (login (onUnauthorizedCleanup s) (.ok u tok) w now).1.apiToken = some tok := by
  intro s u tok w now
  rcases w with ⟨tw, uw, lw⟩
  cases tw <;> cases uw <;> cases lw <;> simp [login, updateLastActive]

/-- Claim C2 counterexample: a load-more issued under the `NEW` filter is
in flight when the search text changes; the new first page resolves first,
then the stale load-more response arrives and IS appended, so the final
items contain entries fetched under the old filters. -/
theorem stale_response_appended_counterexample :
    c2Final.tickets = freshPage ++ stalePage ∧ "stale0" ∈ c2Final.tickets := by
  exact ⟨by decide, by decide⟩

/-- Claim C2 amended: the code has no request-generation guard. A refresh
that resolves replaces the items wholesale, but a load-more response
arriving after it is appended to the refreshed items unconditionally, so
items can contain entries from a request issued under older filters. -/
theorem stale_response_appended :
    ∀ (fB : FilterState) (s : ListState) (dNew dStale : ListData),
      (fetchTicketsResolve (fetchTicketsStart fB s).1 (some dNew)).tickets = dNew.tickets ∧
      (fetchMoreResolve (fetchTicketsResolve (fetchTicketsStart fB s).1 (some dNew))
          (some dStale)).tickets = dNew.tickets ++ dStale.tickets :=
  fun _ _ _ _ => ⟨rfl, rfl⟩

/-- Claim C5 counterexample: a 401 response with a non-JSON content type
returns early before the status check and never invokes the registered
callback, and the multipart upload path never invokes it either. -/
theorem unauthorized_callback_counterexample :
    (request true (.response ⟨401, false, .ok ⟨none⟩⟩)).2 = false ∧
    (uploadImages (.ok ⟨401, .ok ⟨false, none⟩⟩)).2 = false :=
  ⟨rfl, rfl⟩

/-- Claim C5 amended: `request` invokes the registered callback exactly on
JSON responses that parse and carry status 401; non-JSON responses, body
parse failures, timeouts and network failures never invoke it, and the
`uploadImages` paths never invoke it on any outcome. -/
theorem unauthorized_callback_amended :
    (∀ (registered : Bool) (st : Nat) (b : JsonBody),
      (request registered (.response ⟨st, true, .ok b⟩)).2 = (st == 401 && registered)) ∧
    (∀ (registered : Bool) (st : Nat) (b : Except String JsonBody),
      (request registered (.response ⟨st, false, b⟩)).2 = false) ∧
    (∀ (registered : Bool) (st : Nat) (msg : String),
      (request registered (.response ⟨st, true, .error msg⟩)).2 = false) ∧
    (∀ registered : Bool, (request registered .abortTimeout).2 = false ∧
      ∀ m : String, (request registered (.netFailure m)).2 = false) ∧
    (∀ f, (uploadImages f).2 = false) := by
  refine ⟨fun registered st b => ?_, fun _ _ _ => rfl, fun _ _ _ => rfl,
    fun _ => ⟨rfl, fun _ => rfl⟩, fun f => ?_⟩
  · by_cases h : statusOk st = true
    · have hne : (st == 401) = false := by
        simp only [statusOk, Bool.and_eq_true, decide_eq_true_eq] at h
        simp only [beq_eq_false_iff_ne, ne_eq]
        omega
      simp [request, h, hne]
    · simp only [Bool.not_eq_true] at h
      simp [request, h]
  · rcases f with m | r
    · rfl
    · rcases r with ⟨st, mb | b⟩
      · rfl
      · simp only [uploadImages]
        split_ifs <;> rfl

/-- Claim C9 counterexample: login into empty storage where the token write
succeeds and the user-snapshot write throws: the result is a failure with
the thrown message and the in-memory session stays set, but the token IS
persisted — refuting that nothing is persisted for a later restore. -/
theorem login_persist_failure_counterexample :
    c9Run.2 = ⟨false, some "disk full"⟩ ∧
    c9Run.1.user = some userA ∧
    c9Run.1.apiToken = some "tok9" ∧
    c9Run.1.storage.token = some "tok9" :=
  ⟨rfl, rfl, rfl, rfl⟩

/-- Claim C9 amended: when a storage write throws after a successful
sign-in, `login` returns `{success: false}` with the thrown error's message
while the in-memory user and API token remain set; writes completed before
the throw remain persisted — nothing is persisted when the token write
itself throws, but when it succeeds and the user-snapshot write throws, the
token stays persisted. -/
theorem login_persist_failure :
    ∀ (s : AuthState) (u : User) (tok : String) (now : Int) (msg : String),
      (∀ (uw lw : Except String Unit), login s (.ok u tok) ⟨.error msg, uw, lw⟩ now =
        ({ s with apiToken := some tok, user := some u }, ⟨false, some msg⟩)) ∧
      (∀ (lw : Except String Unit), login s (.ok u tok) ⟨.ok (), .error msg, lw⟩ now =
        ({ s with apiToken := some tok, user := some u, storage := { s.storage with token := some tok } }, ⟨false, some msg⟩)) :=
  fun _ _ _ _ _ => ⟨fun _ _ => rfl, fun _ => rfl⟩

end Egpb
